import Mathlib

/-!
Verification of the ant-battle arena game (`ants_game.py`).

Shallow embedding conventions:
* Python floats used by the game logic are modelled as exact rationals `ℚ`
  (the game only adds, subtracts, multiplies and compares them).
* Terrain heights are Python ints, modelled as `ℤ`.
* Python `int(x)` (truncation toward zero) is `pyInt`.
* Python floor division `//` by the positive constant 2 is `Int.ediv`
  (for a positive divisor Euclidean division and floor division agree).
* `math.hypot(dx, dy) ≤ r` comparisons with a non-negative `r` are encoded
  as `dx^2 + dy^2 ≤ r^2`, which is equivalent for exact arithmetic.
* Mutation is explicit state passing; every function returns the updated
  values of whatever the Python method mutates.
-/

/-! ## Configuration constants (`GameConfig`) -/

def SCREEN_WIDTH : ℤ := 800
def SCREEN_HEIGHT : ℤ := 600
def GRAVITY : ℚ := 1/2
def TERRAIN_RESOLUTION : ℤ := 2
def MIN_GROUND_HEIGHT : ℤ := 100
def MAX_GROUND_HEIGHT : ℤ := 200

/-- Python `int(q)`: truncation toward zero. -/
def pyInt (q : ℚ) : ℤ := if 0 ≤ q then ⌊q⌋ else -⌊-q⌋

/-! ## Abilities: cooldown bookkeeping (`Ability.update`) -/

/-- `Ability.update(dt)`: `if self.current_cooldown > 0: self.current_cooldown -= dt`.
Returns the new `current_cooldown`. -/
def ability_update (dt cd : ℚ) : ℚ := if 0 < cd then cd - dt else cd

/-! ## Status effects (`StatusEffect`, `AcidEffect`) -/

/-- A status effect. The base class `StatusEffect` carries `duration` and
`remaining_time`; the only concrete subclass, `AcidEffect`, adds
`damage_per_second = 5`. The field `damage_per_second` records the
subclass's rate. -/
structure StatusEffect where
  duration : ℚ
  remaining_time : ℚ
  damage_per_second : ℚ
deriving DecidableEq, Repr

/-- `AcidEffect(duration)`: `damage_per_second = 5`, `remaining_time = duration`. -/
def mkAcidEffect (duration : ℚ) : StatusEffect :=
  { duration := duration, remaining_time := duration, damage_per_second := 5 }

/-- Base-class `StatusEffect.update(dt, target)`: decrements `remaining_time`
by `dt` and returns `remaining_time > 0` (the target is untouched).
Returns (still-active flag, updated effect). -/
def statusEffect_update (dt : ℚ) (e : StatusEffect) : Bool × StatusEffect :=
  (decide (0 < e.remaining_time - dt),
   { e with remaining_time := e.remaining_time - dt })

/-! ## Combatants (`Ant`) -/

/-- An ant.  `bite_cd` and `acid_cd` are the `current_cooldown` fields of its
two `Ability` objects (`BiteAbility`, `AcidSprayAbility`); their fixed
cooldown/damage/range values are constants of those classes and appear
inline in the activation functions below.  Rendering-only fields
(color, direction, walking, animation counters) are omitted. -/
structure Ant where
  x : ℚ
  y : ℚ
  vx : ℚ
  vy : ℚ
  health : ℚ
  max_health : ℚ
  is_alive : Bool
  bite_cd : ℚ
  acid_cd : ℚ
  active_effects : List StatusEffect
deriving DecidableEq, Repr

/-- `Ant.__init__(x, y, ...)`: health 100, alive, zero velocity, fresh
abilities (cooldown 0), no active effects. -/
def mkAnt (x y : ℚ) : Ant :=
  { x := x, y := y, vx := 0, vy := 0, health := 100, max_health := 100,
    is_alive := true, bite_cd := 0, acid_cd := 0, active_effects := [] }

/-- `Ant.take_damage(amount)`: no-op when not alive; otherwise
`health = max(0, health - amount)` and `is_alive = False` once
`health <= 0`. -/
def take_damage (a : Ant) (amount : ℚ) : Ant :=
  if a.is_alive = false then a
  else
    let h := max 0 (a.health - amount)
    { a with health := h, is_alive := if h ≤ 0 then false else a.is_alive }

/-- `Ant.apply_effect(effect_type, duration)`: appends a fresh `AcidEffect`
when the type is "acid"; other types are ignored. -/
def apply_effect (a : Ant) (effect_type : String) (duration : ℚ) : Ant :=
  if effect_type = "acid" then
    { a with active_effects := a.active_effects ++ [mkAcidEffect duration] }
  else a

/-- `AcidEffect.update(dt, target)`: applies `damage_per_second * dt` damage
to the target, then runs the base-class update.
Returns (still-active flag, updated effect, updated target). -/
def acidEffect_update (dt : ℚ) (e : StatusEffect) (target : Ant) :
    Bool × StatusEffect × Ant :=
  let target' := take_damage target (e.damage_per_second * dt)
  let r := statusEffect_update dt e
  (r.1, r.2, target')

/-- The status-effect pass of `Ant.update`:
`self.active_effects = [e for e in self.active_effects if e.update(dt, self)]`.
Each effect's `update` mutates the ant (acid damage) as the comprehension
runs, and the comprehension keeps exactly the effects whose `update`
returned True.  Returns (new effect list, updated ant). -/
def update_effects (dt : ℚ) (a : Ant) : List StatusEffect → List StatusEffect × Ant
  | [] => ([], a)
  | e :: rest =>
    let r := acidEffect_update dt e a
    let rec_r := update_effects dt r.2.2 rest
    (if r.1 then r.2.1 :: rec_r.1 else rec_r.1, rec_r.2)

/-! ## Terrain (`Terrain`) -/

/-- `Terrain.generate_terrain`, with the sum of the three phase-shifted
sinusoids at sample index `i` (world-x `2*i`) abstracted as an arbitrary
rational `noise i` (the claims quantify over every random phase, so any
noise function is admissible).  Each sample is
`int(clamp(MIN_GROUND_HEIGHT + noise, MIN_GROUND_HEIGHT, MAX_GROUND_HEIGHT))`;
`range(0, 800, 2)` yields 400 samples. -/
def generate_terrain (noise : ℕ → ℚ) : List ℤ :=
  (List.range 400).map fun i =>
    pyInt (min (max ((MIN_GROUND_HEIGHT : ℚ) + noise i) (MIN_GROUND_HEIGHT : ℚ))
              (MAX_GROUND_HEIGHT : ℚ))

/-- `Terrain.apply_destruction(x, y, radius)` acting on the height map.
The Python loop runs over `range(impact_start, impact_end)` and rewrites
`height_map[i]` from its own old value only, so it is the index-wise map
below.  `y` only feeds the rendering-only destruction overlay. -/
def apply_destruction (hm : List ℤ) (x y radius : ℤ) : List ℤ :=
  let impact_start : ℤ := max 0 (x / 2 - radius / 2)
  let impact_end : ℤ := min (hm.length : ℤ) ((x + radius) / 2 + 1)
  hm.mapIdx fun i h =>
    if impact_start ≤ (i : ℤ) ∧ (i : ℤ) < impact_end then
      let dist := |x - (i : ℤ) * 2|
      if dist < radius then
        max MIN_GROUND_HEIGHT (h - (radius - dist) / 2)
      else h
    else h

/-- `Terrain.get_height_at(x)`: MIN_GROUND_HEIGHT off-screen, otherwise the
sample at index `min(len - 1, x // 2)`.  (Python would raise on an empty
height map; the `getD` default is unreachable for the non-empty maps the
game builds.) -/
def get_height_at (hm : List ℤ) (x : ℤ) : ℤ :=
  if x < 0 ∨ SCREEN_WIDTH ≤ x then MIN_GROUND_HEIGHT
  else hm.getD (min (hm.length - 1) (x / 2).toNat) MIN_GROUND_HEIGHT

/-- `Terrain.check_collision(x, y)`: False for any point outside the screen
rectangle; otherwise compares `y` with the screen-space ground line. -/
def check_collision (hm : List ℤ) (x y : ℤ) : Bool :=
  if x < 0 ∨ SCREEN_WIDTH ≤ x ∨ y < 0 ∨ SCREEN_HEIGHT ≤ y then false
  else decide (SCREEN_HEIGHT - get_height_at hm x ≤ y)

/-- Height maps reachable in a match: generated once (any phase), then
mutated only by `apply_destruction`. -/
inductive TerrainReachable : List ℤ → Prop
  | gen (noise : ℕ → ℚ) : TerrainReachable (generate_terrain noise)
  | crater (hm : List ℤ) (x y radius : ℤ) (h : TerrainReachable hm) :
      TerrainReachable (apply_destruction hm x y radius)

/-! ## Ability activation (`BiteAbility`, `AcidSprayAbility`, `Ant.use_ability`) -/

/-- `BiteAbility.activate(user, target)`: cooldown 2.0, damage 20, range 30.
Returns (success, updated user, updated target); `hypot ≤ 30` is encoded
by squares. -/
def bite_activate (user target : Ant) : Bool × Ant × Ant :=
  if 0 < user.bite_cd then (false, user, target)
  else if (user.x - target.x) ^ 2 + (user.y - target.y) ^ 2 ≤ 30 ^ 2 then
    (true, { user with bite_cd := 2 }, take_damage target 20)
  else (false, user, target)

/-- `AcidSprayAbility.activate(user, target)`: cooldown 5.0, damage 15,
range 50; on success also applies a 3.0s acid effect to the target. -/
def acid_spray_activate (user target : Ant) : Bool × Ant × Ant :=
  if 0 < user.acid_cd then (false, user, target)
  else if (user.x - target.x) ^ 2 + (user.y - target.y) ^ 2 ≤ 50 ^ 2 then
    (true, { user with acid_cd := 5 },
     apply_effect (take_damage target 15) "acid" 3)
  else (false, user, target)

/-- `Ant.use_ability(ability_name, target)`: dispatches on the ability dict
(keys "bite" and "acid_spray"); unknown names return False.  Note the
method never consults `self.is_alive`. -/
def use_ability (a : Ant) (ability_name : String) (target : Ant) :
    Bool × Ant × Ant :=
  if ability_name = "bite" then bite_activate a target
  else if ability_name = "acid_spray" then acid_spray_activate a target
  else (false, a, target)

/-- `Ant.update(dt, terrain)` (animation bookkeeping omitted): no-op if not
alive; integrates position, snaps to the ground line or applies gravity,
advances both ability cooldowns, then runs the status-effect pass. -/
def ant_update (dt : ℚ) (hm : List ℤ) (a : Ant) : Ant :=
  if a.is_alive = false then a
  else
    let a := { a with x := a.x + a.vx, y := a.y + a.vy }
    let gh := get_height_at hm (pyInt a.x)
    let a :=
      if (SCREEN_HEIGHT - gh : ℚ) < a.y then
        { a with y := (SCREEN_HEIGHT - gh : ℚ), vy := 0 }
      else { a with vy := a.vy + GRAVITY }
    let a := { a with bite_cd := ability_update dt a.bite_cd,
                      acid_cd := ability_update dt a.acid_cd }
    let r := update_effects dt a a.active_effects
    { r.2 with active_effects := r.1 }

/-! ## Projectiles (`Projectile`) -/

structure Proj where
  x : ℚ
  y : ℚ
  vx : ℚ
  vy : ℚ
  damage : ℚ
  active : Bool
  trail : List (ℚ × ℚ)
deriving DecidableEq, Repr

/-- `Projectile.__init__(x, y, velocity)` with the default damage 30. -/
def mkProj (x y vx vy : ℚ) : Proj :=
  { x := x, y := y, vx := vx, vy := vy, damage := 30, active := true,
    trail := [] }

/-- `Projectile.update(config)`: record the trail point (capacity 10, oldest
dropped), add the constant gravity increment to `vy`, then integrate. -/
def projectile_update (p : Proj) : Proj :=
  let trail := p.trail ++ [(p.x, p.y)]
  let trail := if 10 < trail.length then trail.drop 1 else trail
  let vy := p.vy + GRAVITY
  { p with trail := trail, vy := vy, x := p.x + p.vx, y := p.y + vy }

/-- The projectile block of `Game.update` (source lines 591-605): when the
projectile is active, integrate it, then run the terrain-impact check and
the enemy-hit check in sequence.  The two checks are separate `if`
statements — the enemy-hit check runs even when the terrain check fired.
Returns (height map, projectile, enemy). -/
def game_update_projectile (hm : List ℤ) (p : Proj) (enemy : Ant) :
    List ℤ × Proj × Ant :=
  if p.active = false then (hm, p, enemy)
  else
    let p := projectile_update p
    let hit_ground := check_collision hm (pyInt p.x) (pyInt p.y)
    let hm := if hit_ground then
        apply_destruction hm (pyInt p.x) (pyInt p.y) 20 else hm
    let p := if hit_ground then { p with active := false } else p
    let hit_enemy :=
      decide ((p.x - enemy.x) ^ 2 + (p.y - enemy.y) ^ 2 < 15 ^ 2)
    let enemy := if hit_enemy then take_damage enemy p.damage else enemy
    let p := if hit_enemy then { p with active := false } else p
    (hm, p, enemy)

/-! ## Opponent controller (`AIController`) -/

/-- Controller state: `state` string, `state_timer`, fixed `difficulty`
(0.7 in the constructor). -/
structure AIController where
  state : String
  state_timer : ℚ
  difficulty : ℚ
deriving DecidableEq, Repr

/-- One tick's random draws, injected explicitly: `u_move = uniform(1,3)`,
`u_idle = uniform(0.5,1.5)`, `u_attack = uniform(1,2)`, and the three
`random.random()` rolls (direction flip, attack roll, ability choice). -/
structure AIRand where
  u_move : ℚ
  u_idle : ℚ
  u_attack : ℚ
  r_flip : ℚ
  r_roll : ℚ
  r_choice : ℚ
deriving DecidableEq, Repr

/-- `AIController.update(dt, player_ant, terrain)`: no-op if the controlled
ant is dead; otherwise decrement the timer, compute the horizontal
distance, and step the idle/move/attack state machine.
Returns (controller, controlled ant, player ant). -/
def ai_update (dt : ℚ) (rnd : AIRand) (c : AIController) (ant player : Ant) :
    AIController × Ant × Ant :=
  if ant.is_alive = false then (c, ant, player)
  else
    let timer := c.state_timer - dt
    let d := |ant.x - player.x|
    if c.state = "idle" then
      if timer ≤ 0 then
        if d < 100 then ({ c with state := "attack", state_timer := 2 }, ant, player)
        else ({ c with state := "move", state_timer := rnd.u_move }, ant, player)
      else ({ c with state_timer := timer }, ant, player)
    else if c.state = "move" then
      if timer ≤ 0 ∨ d < 50 then
        ({ c with state := "idle", state_timer := rnd.u_idle }, ant, player)
      else
        let dir : ℚ := if ant.x < player.x then 1 else -1
        let dir := if rnd.r_flip < 1/5 then -dir else dir
        ({ c with state_timer := timer },
         { ant with x := ant.x + dir * 2 }, player)
    else if c.state = "attack" then
      let r :=
        if d < 120 ∧ rnd.r_roll < c.difficulty then
          if d < 40 ∧ rnd.r_choice < 7/10 then
            (use_ability ant "bite" player).2
          else
            (use_ability ant "acid_spray" player).2
        else (ant, player)
      ({ c with state := "idle", state_timer := rnd.u_attack }, r.1, r.2)
    else ({ c with state_timer := timer }, ant, player)

/-! ## Helper lemmas -/

lemma getD_mapIdx (l : List ℤ) (f : ℕ → ℤ → ℤ) (i : ℕ) (hi : i < l.length) :
    (l.mapIdx f).getD i 0 = f i (l.getD i 0) := by
  have h2 : i < (l.mapIdx f).length := by rw [List.length_mapIdx]; exact hi
  rw [List.getD_eq_getElem?_getD, List.getD_eq_getElem?_getD,
    List.getElem?_eq_getElem h2, List.getElem?_eq_getElem hi]
  simpa using List.get_mapIdx l f i hi

lemma getD_replicate (n i : ℕ) (a d : ℤ) (h : i < n) :
    (List.replicate n a).getD i d = a := by
  rw [List.getD_eq_getElem?_getD]
  simp [List.getElem?_replicate, h]

lemma take_damage_health_nonneg (a : Ant) (amt : ℚ) (h : 0 ≤ a.health) :
    0 ≤ (take_damage a amt).health := by
  unfold take_damage
  split_ifs with h1
  · exact h
  · exact le_max_left 0 _

lemma take_damage_dead (a : Ant) (amt : ℚ) (h : a.is_alive = false) :
    take_damage a amt = a := by
  unfold take_damage
  simp [h]

lemma apply_destruction_length (hm : List ℤ) (x y radius : ℤ) :
    (apply_destruction hm x y radius).length = hm.length := by
  unfold apply_destruction
  rw [List.length_mapIdx]

lemma apply_destruction_getD (hm : List ℤ) (x y radius : ℤ) (i : ℕ)
    (hi : i < hm.length) :
    (apply_destruction hm x y radius).getD i 0 =
      if |x - (i : ℤ) * 2| < radius then
        max MIN_GROUND_HEIGHT (hm.getD i 0 - (radius - |x - (i : ℤ) * 2|) / 2)
      else hm.getD i 0 := by
  unfold apply_destruction
  rw [getD_mapIdx _ _ _ hi]
  by_cases hd : |x - (i : ℤ) * 2| < radius
  · have habs := abs_lt.mp hd
    have hrange : max 0 (x / 2 - radius / 2) ≤ (i : ℤ) ∧
        (i : ℤ) < min (hm.length : ℤ) ((x + radius) / 2 + 1) := by
      have hilen : (i : ℤ) < (hm.length : ℤ) := by exact_mod_cast hi
      omega
    simp only [hrange, and_self, if_true, hd]
  · simp only [hd, if_false]
    split_ifs <;> rfl

lemma update_effects_fst (dt : ℚ) (a : Ant) (es : List StatusEffect) :
    (update_effects dt a es).1 =
      (es.map fun e => { e with remaining_time := e.remaining_time - dt }).filter
        fun e => decide (0 < e.remaining_time) := by
  induction es generalizing a with
  | nil => rfl
  | cons e rest ih =>
    simp only [update_effects, acidEffect_update, statusEffect_update,
      List.map_cons, List.filter_cons, ih]

lemma update_effects_snd (dt : ℚ) (a : Ant) (es : List StatusEffect) :
    (update_effects dt a es).2 =
      es.foldl (fun b e => take_damage b (e.damage_per_second * dt)) a := by
  induction es generalizing a with
  | nil => rfl
  | cons e rest ih =>
    simp only [update_effects, acidEffect_update, statusEffect_update,
      List.foldl_cons, ih]

/-! ## Claim theorems -/

/-- C3, counterexample: the claim says repeated cooldown ticks are "floored
at 0: the remaining cooldown never becomes negative", but `Ability.update`
subtracts `dt` from a positive cooldown without flooring.  A freshly
activated bite ability (cooldown 2.0) ticked with `dt = 3` ends at `-1`. -/
theorem C3_counterexample :
    ability_update 3 ((bite_activate (mkAnt 0 0) (mkAnt 10 0)).2.1.bite_cd)
      = -1 := by
  norm_num [ability_update, bite_activate, mkAnt]

/-- C3, amended: each `tick(dt)` call with `dt ≥ 0` decreases a positive
remaining cooldown by exactly `dt` and leaves a non-positive cooldown
unchanged; there is no floor at 0, so the cooldown may become negative,
though never below `-dt` when starting from a non-negative value. -/
theorem C3_amended (dt cd : ℚ) (hdt : 0 ≤ dt) :
    (0 < cd → ability_update dt cd = cd - dt) ∧
    (cd ≤ 0 → ability_update dt cd = cd) ∧
    (0 ≤ cd → -dt ≤ ability_update dt cd) := by
  unfold ability_update
  refine ⟨fun h => by simp [h], fun h => by simp [not_lt.mpr h], fun h => ?_⟩
  split_ifs with h1 <;> linarith

theorem C3_amended_witness : ability_update 1 2 = 1 := by
  have h := (C3_amended 1 2 (by norm_num)).1 (by norm_num)
  rw [h]; norm_num

/-- C4: ability activation is atomic on failure — on cooldown or out of
range, `activate` returns false and changes neither the user (cooldowns)
nor the target; otherwise it applies the fixed damage (plus, for acid
spray, the 3.0s acid effect), resets the cooldown to its fixed duration,
and returns true.  Range comparisons are the squared form of
`hypot(dx, dy) ≤ range`. -/
theorem C4_activation_atomic (user target : Ant) :
    ((0 < user.bite_cd ∨
        30 ^ 2 < (user.x - target.x) ^ 2 + (user.y - target.y) ^ 2) →
      bite_activate user target = (false, user, target)) ∧
    (user.bite_cd ≤ 0 →
      (user.x - target.x) ^ 2 + (user.y - target.y) ^ 2 ≤ 30 ^ 2 →
      bite_activate user target =
        (true, { user with bite_cd := 2 }, take_damage target 20)) ∧
    ((0 < user.acid_cd ∨
        50 ^ 2 < (user.x - target.x) ^ 2 + (user.y - target.y) ^ 2) →
      acid_spray_activate user target = (false, user, target)) ∧
    (user.acid_cd ≤ 0 →
      (user.x - target.x) ^ 2 + (user.y - target.y) ^ 2 ≤ 50 ^ 2 →
      acid_spray_activate user target =
        (true, { user with acid_cd := 5 },
          apply_effect (take_damage target 15) "acid" 3)) := by
  unfold bite_activate acid_spray_activate
  refine ⟨fun h => ?_, fun h1 h2 => ?_, fun h => ?_, fun h1 h2 => ?_⟩ <;>
    split_ifs with g1 g2 <;> first
      | rfl
      | (exfalso; rcases h with h | h <;> linarith)
      | linarith

theorem C4_activation_atomic_witness :
    bite_activate { mkAnt 0 0 with bite_cd := 1 } (mkAnt 10 0) =
      (false, { mkAnt 0 0 with bite_cd := 1 }, mkAnt 10 0) ∧
    bite_activate (mkAnt 0 0) (mkAnt 10 0) =
      (true, { mkAnt 0 0 with bite_cd := 2 }, take_damage (mkAnt 10 0) 20) := by
  have h1 := (C4_activation_atomic { mkAnt 0 0 with bite_cd := 1 } (mkAnt 10 0)).1
  have h2 := (C4_activation_atomic (mkAnt 0 0) (mkAnt 10 0)).2.1
  exact ⟨h1 (Or.inl (by norm_num [mkAnt])),
    h2 (by norm_num [mkAnt]) (by norm_num [mkAnt])⟩

/-- C5: under any sequence of `take_damage` calls health stays ≥ 0; on a
live ant `take_damage` clears the alive flag exactly when the clamped
health reaches 0; and once dead, further `take_damage` calls are complete
no-ops while effect application and effect ticks leave health and the
alive flag unchanged. -/
theorem C5_damage_floor (a : Ant) (amounts : List ℚ) (amt : ℚ)
    (e : StatusEffect) (ty : String) (dur dt : ℚ) :
    (0 ≤ a.health → 0 ≤ (amounts.foldl take_damage a).health) ∧
    (a.is_alive = true →
      ((take_damage a amt).is_alive = false ↔ (take_damage a amt).health = 0)) ∧
    (a.is_alive = false → take_damage a amt = a) ∧
    ((apply_effect a ty dur).health = a.health ∧
      (apply_effect a ty dur).is_alive = a.is_alive) ∧
    (a.is_alive = false →
      (acidEffect_update dt e a).2.2.health = a.health ∧
      (acidEffect_update dt e a).2.2.is_alive = a.is_alive) := by
  refine ⟨?_, ?_, take_damage_dead a amt, ?_, ?_⟩
  · intro h
    induction amounts generalizing a with
    | nil => exact h
    | cons amt2 rest ih => exact ih _ (take_damage_health_nonneg a amt2 h)
  · intro h
    unfold take_damage
    simp only [h, Bool.true_eq_false, if_false]
    constructor
    · intro hdead
      by_cases hz : max 0 (a.health - amt) ≤ 0
      · exact le_antisymm hz (le_max_left 0 _)
      · simp [hz, h] at hdead
    · intro hz
      simp [hz]
  · unfold apply_effect
    split_ifs <;> simp
  · intro h
    unfold acidEffect_update
    simp [take_damage_dead a _ h]

theorem C5_damage_floor_witness :
    0 ≤ ((([50, 60, 70] : List ℚ)).foldl take_damage (mkAnt 0 0)).health ∧
    ((take_damage (mkAnt 0 0) 100).is_alive = false ↔
      (take_damage (mkAnt 0 0) 100).health = 0) := by
  have h := C5_damage_floor (mkAnt 0 0) [50, 60, 70] 100 (mkAcidEffect 3)
    "acid" 3 1
  exact ⟨h.1 (by norm_num [mkAnt]), h.2.1 (by norm_num [mkAnt])⟩

/-- C6: one acid-effect tick applies `rate * dt` damage to a live holder
(exactly `rate * dt` off the health whenever the health covers it, and the
clamped amount otherwise), then decrements the remaining duration by `dt`,
and reports still-active iff the decremented remaining duration is
positive; the holder's effect pass keeps exactly the still-active
decremented effects — an expired effect is dropped that same tick — while
the ant accumulates the damage of every ticked effect, expired ones
included (the final partial tick still deals its damage). -/
theorem C6_effect_tick (dt : ℚ) (hdt : 0 < dt) (e : StatusEffect) (a : Ant)
    (es : List StatusEffect) :
    ((acidEffect_update dt e a).2.1.remaining_time = e.remaining_time - dt) ∧
    ((acidEffect_update dt e a).1 = true ↔
      0 < (acidEffect_update dt e a).2.1.remaining_time) ∧
    (a.is_alive = true →
      (acidEffect_update dt e a).2.2.health =
        max 0 (a.health - e.damage_per_second * dt)) ∧
    (a.is_alive = true → e.damage_per_second * dt ≤ a.health →
      (acidEffect_update dt e a).2.2.health =
        a.health - e.damage_per_second * dt) ∧
    ((update_effects dt a es).1 =
      (es.map fun e2 => { e2 with remaining_time := e2.remaining_time - dt }).filter
        fun e2 => decide (0 < e2.remaining_time)) ∧
    ((update_effects dt a es).2 =
      es.foldl (fun b e2 => take_damage b (e2.damage_per_second * dt)) a) := by
  refine ⟨rfl, by simp [acidEffect_update, statusEffect_update], ?_, ?_,
    update_effects_fst dt a es, update_effects_snd dt a es⟩
  · intro h
    simp [acidEffect_update, take_damage, h]
  · intro h hcover
    simp [acidEffect_update, take_damage, h]
    linarith

theorem C6_effect_tick_witness :
    (acidEffect_update 2 (mkAcidEffect 1) (mkAnt 0 0)).2.2.health = 90 ∧
    (update_effects 2 (mkAnt 0 0) [mkAcidEffect 1]).1 = [] ∧
    (update_effects 2 (mkAnt 0 0) [mkAcidEffect 1]).2.health = 90 := by
  have h := C6_effect_tick 2 (by norm_num) (mkAcidEffect 1) (mkAnt 0 0)
    [mkAcidEffect 1]
  obtain ⟨-, -, -, h4, h5, h6⟩ := h
  refine ⟨?_, ?_, ?_⟩
  · rw [h4 (by norm_num [mkAnt]) (by norm_num [mkAnt, mkAcidEffect])]
    norm_num [mkAnt, mkAcidEffect]
  · rw [h5]
    norm_num [mkAcidEffect]
  · rw [h6]
    norm_num [mkAnt, mkAcidEffect, take_damage]

/-- C7: `apply_destruction(x, y, radius)` lowers every sample whose world-x
lies strictly within `radius` of `x` by `floor((radius - distance) / 2)`,
clamped at MIN_GROUND_HEIGHT; leaves every sample at distance ≥ radius
exactly unchanged; preserves the sample count; and never raises a sample
that was at least MIN_GROUND_HEIGHT (as every reachable sample is). -/
theorem C7_crater_shape (hm : List ℤ) (x y radius : ℤ) (i : ℕ)
    (hi : i < hm.length) :
    ((apply_destruction hm x y radius).length = hm.length) ∧
    (|x - (i : ℤ) * 2| < radius →
      (apply_destruction hm x y radius).getD i 0 =
        max MIN_GROUND_HEIGHT
          (hm.getD i 0 - (radius - |x - (i : ℤ) * 2|) / 2)) ∧
    (radius ≤ |x - (i : ℤ) * 2| →
      (apply_destruction hm x y radius).getD i 0 = hm.getD i 0) ∧
    (MIN_GROUND_HEIGHT ≤ hm.getD i 0 →
      (apply_destruction hm x y radius).getD i 0 ≤ hm.getD i 0) := by
  refine ⟨apply_destruction_length hm x y radius, ?_, ?_, ?_⟩
  · intro hd
    rw [apply_destruction_getD hm x y radius i hi]
    simp [hd]
  · intro hd
    rw [apply_destruction_getD hm x y radius i hi]
    simp [not_lt.mpr hd]
  · intro hb
    rw [apply_destruction_getD hm x y radius i hi]
    split_ifs with hd
    · have h0 : (0 : ℤ) ≤ |x - (i : ℤ) * 2| := abs_nonneg _
      have hred : 0 ≤ (radius - |x - (i : ℤ) * 2|) / 2 := by omega
      rw [MIN_GROUND_HEIGHT] at hb ⊢
      omega
    · exact le_refl _

theorem C7_crater_shape_witness :
    (apply_destruction [100, 150, 150] 2 0 2).getD 1 0 = 149 ∧
    (apply_destruction [100, 150, 150] 2 0 2).getD 0 0 = 100 := by
  have h1 := (C7_crater_shape [100, 150, 150] 2 0 2 1 (by norm_num)).2.1
  have h0 := (C7_crater_shape [100, 150, 150] 2 0 2 0 (by norm_num)).2.2.1
  constructor
  · rw [h1 (by norm_num)]
    norm_num [MIN_GROUND_HEIGHT]
  · rw [h0 (by norm_num)]
    norm_num

lemma generate_terrain_length (noise : ℕ → ℚ) :
    (generate_terrain noise).length = 400 := by
  simp [generate_terrain]

lemma generate_terrain_getD (noise : ℕ → ℚ) (i : ℕ) (hi : i < 400) :
    (generate_terrain noise).getD i 0 =
      pyInt (min (max ((MIN_GROUND_HEIGHT : ℚ) + noise i) (MIN_GROUND_HEIGHT : ℚ))
        (MAX_GROUND_HEIGHT : ℚ)) := by
  unfold generate_terrain
  rw [List.getD_eq_getElem?_getD]
  simp [List.getElem?_map, List.getElem?_range, hi]

lemma generate_terrain_bounds (noise : ℕ → ℚ) (i : ℕ) (hi : i < 400) :
    MIN_GROUND_HEIGHT ≤ (generate_terrain noise).getD i 0 ∧
      (generate_terrain noise).getD i 0 ≤ MAX_GROUND_HEIGHT := by
  rw [generate_terrain_getD noise i hi]
  set q : ℚ := min (max ((MIN_GROUND_HEIGHT : ℚ) + noise i) (MIN_GROUND_HEIGHT : ℚ))
    (MAX_GROUND_HEIGHT : ℚ) with hq
  have hq1 : (MIN_GROUND_HEIGHT : ℚ) ≤ q := by
    rw [hq, MIN_GROUND_HEIGHT, MAX_GROUND_HEIGHT]
    exact le_min (le_max_right _ _) (by norm_num)
  have hq2 : q ≤ (MAX_GROUND_HEIGHT : ℚ) := min_le_right _ _
  have hq0 : (0 : ℚ) ≤ q := by
    refine le_trans ?_ hq1
    rw [MIN_GROUND_HEIGHT]
    norm_num
  rw [pyInt, if_pos hq0]
  constructor
  · exact Int.le_floor.mpr (by exact_mod_cast hq1)
  · calc ⌊q⌋ ≤ ⌊(MAX_GROUND_HEIGHT : ℚ)⌋ := Int.floor_le_floor hq2
      _ = MAX_GROUND_HEIGHT := by rw [Int.floor_intCast]

lemma apply_destruction_bounds (hm : List ℤ) (x y radius : ℤ) (i : ℕ)
    (hi : i < hm.length)
    (hb : MIN_GROUND_HEIGHT ≤ hm.getD i 0 ∧ hm.getD i 0 ≤ MAX_GROUND_HEIGHT) :
    MIN_GROUND_HEIGHT ≤ (apply_destruction hm x y radius).getD i 0 ∧
      (apply_destruction hm x y radius).getD i 0 ≤ MAX_GROUND_HEIGHT := by
  rw [apply_destruction_getD hm x y radius i hi]
  split_ifs with hd
  · have h0 : (0 : ℤ) ≤ |x - (i : ℤ) * 2| := abs_nonneg _
    have hred : 0 ≤ (radius - |x - (i : ℤ) * 2|) / 2 := by omega
    rw [MIN_GROUND_HEIGHT, MAX_GROUND_HEIGHT] at hb ⊢
    omega
  · exact hb

/-- C8: every reachable height map — generated with any phase, then hit by
any sequence of craters — has sample count `ceil(SCREEN_WIDTH /
TERRAIN_RESOLUTION) = 400` and every sample within
`[MIN_GROUND_HEIGHT, MAX_GROUND_HEIGHT]`. -/
theorem C8_terrain_invariant (hm : List ℤ) (hr : TerrainReachable hm) :
    hm.length = ((SCREEN_WIDTH + TERRAIN_RESOLUTION - 1) / TERRAIN_RESOLUTION).toNat ∧
    ∀ i : ℕ, i < hm.length →
      MIN_GROUND_HEIGHT ≤ hm.getD i 0 ∧ hm.getD i 0 ≤ MAX_GROUND_HEIGHT := by
  induction hr with
  | gen noise =>
    refine ⟨?_, fun i hi => ?_⟩
    · rw [generate_terrain_length, SCREEN_WIDTH, TERRAIN_RESOLUTION]
      rfl
    · rw [generate_terrain_length] at hi
      exact generate_terrain_bounds noise i hi
  | crater hm2 x y radius h ih =>
    refine ⟨?_, fun i hi => ?_⟩
    · rw [apply_destruction_length, ih.1]
    · rw [apply_destruction_length] at hi
      exact apply_destruction_bounds hm2 x y radius i hi (ih.2 i hi)

theorem C8_terrain_invariant_witness :
    (generate_terrain fun _ => 0).length = 400 ∧
    MIN_GROUND_HEIGHT ≤ (generate_terrain fun _ => 0).getD 0 0 := by
  have h := C8_terrain_invariant (generate_terrain fun _ => 0)
    (TerrainReachable.gen (fun _ => 0))
  have hlen : (generate_terrain fun _ => 0).length = 400 := by
    rw [h.1, SCREEN_WIDTH, TERRAIN_RESOLUTION]
    rfl
  exact ⟨hlen, (h.2 0 (by rw [hlen]; norm_num)).1⟩

/-- C9, counterexample: the claim states `check_collision(x, y)` is true iff
`y >= SCREEN_HEIGHT - get_height_at(x)` (with off-screen x read as
MIN_GROUND_HEIGHT), but the code short-circuits every point outside the
screen rectangle to False.  At `x = -1, y = 599` the claimed formula holds
(599 ≥ 600 - 100) yet the probe returns False. -/
theorem C9_counterexample :
    check_collision (List.replicate 400 100) (-1) 599 = false ∧
    SCREEN_HEIGHT - get_height_at (List.replicate 400 100) (-1) ≤ 599 := by
  constructor
  · norm_num [check_collision]
  · norm_num [get_height_at, SCREEN_HEIGHT, MIN_GROUND_HEIGHT]

/-- C9, amended: `check_collision(x, y)` is true iff the point lies inside
the screen rectangle AND `y ≥ SCREEN_HEIGHT - get_height_at(x)`; any point
with x outside [0, SCREEN_WIDTH) or y outside [0, SCREEN_HEIGHT) yields
False.  `get_height_at` itself does return MIN_GROUND_HEIGHT for
out-of-bounds x and the index-clamped sample otherwise, and both functions
are pure. -/
theorem C9_grounded_iff (hm : List ℤ) (x z : ℤ) :
    (check_collision hm x z = true ↔
      0 ≤ x ∧ x < SCREEN_WIDTH ∧ 0 ≤ z ∧ z < SCREEN_HEIGHT ∧
        SCREEN_HEIGHT - get_height_at hm x ≤ z) ∧
    ((x < 0 ∨ SCREEN_WIDTH ≤ x) → get_height_at hm x = MIN_GROUND_HEIGHT) ∧
    (0 ≤ x → x < SCREEN_WIDTH →
      get_height_at hm x =
        hm.getD (min (hm.length - 1) (x / 2).toNat) MIN_GROUND_HEIGHT) := by
  refine ⟨?_, ?_, fun h1 h2 => ?_⟩
  · unfold check_collision
    split_ifs with h
    · constructor
      · intro hx
        simp at hx
      · rintro ⟨h1, h2, h3, h4, -⟩
        omega
    · rw [decide_eq_true_iff]
      push_neg at h
      constructor
      · intro h5
        exact ⟨by omega, by omega, by omega, by omega, h5⟩
      · rintro ⟨-, -, -, -, h5⟩
        exact h5
  · intro h
    unfold get_height_at
    rw [if_pos h]
  · unfold get_height_at
    rw [if_neg (by omega)]

theorem C9_grounded_iff_witness :
    check_collision (List.replicate 400 100) 10 550 = true := by
  have hh : get_height_at (List.replicate 400 100) 10 = 100 := by
    unfold get_height_at
    rw [if_neg (by norm_num [SCREEN_WIDTH])]
    have hmin : min ((List.replicate (400 : ℕ) (100 : ℤ)).length - 1)
        (((10 : ℤ) / 2).toNat) = 5 := by
      rw [List.length_replicate]
      decide
    rw [hmin, MIN_GROUND_HEIGHT, getD_replicate 400 5 100 100 (by norm_num)]
  apply (C9_grounded_iff (List.replicate 400 100) 10 550).1.mpr
  refine ⟨by norm_num, by norm_num [SCREEN_WIDTH], by norm_num,
    by norm_num [SCREEN_HEIGHT], ?_⟩
  rw [hh]
  norm_num [SCREEN_HEIGHT]

/-- C2, counterexample: the claim says `use_ability` is entirely a no-op for
a dead user, but neither `use_ability` nor the activate methods consult
`is_alive`: a dead ant with a ready bite and an in-range target gets a
True return and deals 20 damage. -/
theorem C2_counterexample :
    ({ mkAnt 0 0 with is_alive := false } : Ant).is_alive = false ∧
    (use_ability { mkAnt 0 0 with is_alive := false } "bite" (mkAnt 10 0)).1
      = true ∧
    (use_ability { mkAnt 0 0 with is_alive := false } "bite"
      (mkAnt 10 0)).2.2.health = 80 := by
  refine ⟨rfl, ?_, ?_⟩ <;>
    norm_num [use_ability, bite_activate, take_damage, mkAnt]

/-- C2, amended: `use_ability` never consults the user's alive flag — its
success result and its effect on the target are identical for a live and a
dead user (so a dead combatant can still activate abilities); it returns
False with no state change for an unknown ability name. -/
theorem C2_dead_user_irrelevant (u target : Ant) (name : String) (b : Bool) :
    ((use_ability { u with is_alive := b } name target).1 =
      (use_ability u name target).1) ∧
    ((use_ability { u with is_alive := b } name target).2.2 =
      (use_ability u name target).2.2) ∧
    (name ≠ "bite" → name ≠ "acid_spray" →
      use_ability u name target = (false, u, target)) := by
  obtain ⟨ux, uy, uvx, uvy, uh, um, ua, ub, uac, ue⟩ := u
  refine ⟨?_, ?_, fun h1 h2 => ?_⟩ <;>
    simp only [use_ability, bite_activate, acid_spray_activate] <;>
    split_ifs <;> simp_all

theorem C2_dead_user_irrelevant_witness :
    (use_ability { mkAnt 0 0 with is_alive := false } "bite" (mkAnt 10 0)).1 =
      (use_ability (mkAnt 0 0) "bite" (mkAnt 10 0)).1 ∧
    use_ability (mkAnt 0 0) "fly" (mkAnt 10 0) =
      (false, mkAnt 0 0, mkAnt 10 0) := by
  have h := C2_dead_user_irrelevant (mkAnt 0 0) (mkAnt 10 0) "bite" false
  have h2 := C2_dead_user_irrelevant (mkAnt 0 0) (mkAnt 10 0) "fly" false
  exact ⟨h.1, h2.2.2 (by decide) (by decide)⟩

/-- C1, counterexample: the claim says the ground check takes priority and
no combatant damage is dealt on a terrain-impact tick, but the two impact
checks are independent `if` statements.  A projectile that steps onto the
ground line right next to the enemy both craters the terrain (ground check
true) and deals its 30 damage (enemy health 100 → 70) in the same tick. -/
theorem C1_counterexample :
    check_collision (List.replicate 400 100)
        (pyInt (projectile_update (mkProj 400 (999/2) 0 0)).x)
        (pyInt (projectile_update (mkProj 400 (999/2) 0 0)).y) = true ∧
    (game_update_projectile (List.replicate 400 100) (mkProj 400 (999/2) 0 0)
        (mkAnt 400 500)).2.2.health = 70 := by
  have hx : (projectile_update (mkProj 400 (999/2) 0 0)).x = 400 := by
    norm_num [projectile_update, mkProj]
  have hy : (projectile_update (mkProj 400 (999/2) 0 0)).y = 500 := by
    norm_num [projectile_update, mkProj, GRAVITY]
  have hpx : pyInt 400 = 400 := by norm_num [pyInt]
  have hpy : pyInt 500 = 500 := by norm_num [pyInt]
  have hg : check_collision (List.replicate 400 100) 400 500 = true := by
    unfold check_collision
    rw [if_neg (by norm_num [SCREEN_WIDTH, SCREEN_HEIGHT])]
    have hh : get_height_at (List.replicate 400 100) 400 = 100 := by
      unfold get_height_at
      rw [if_neg (by norm_num [SCREEN_WIDTH])]
      have hmin : min ((List.replicate (400 : ℕ) (100 : ℤ)).length - 1)
          (((400 : ℤ) / 2).toNat) = 200 := by
        rw [List.length_replicate]
        decide
      rw [hmin, MIN_GROUND_HEIGHT, getD_replicate 400 200 100 100 (by norm_num)]
    rw [hh]
    norm_num [SCREEN_HEIGHT]
  refine ⟨by rw [hx, hy, hpx, hpy]; exact hg, ?_⟩
  unfold game_update_projectile
  rw [if_neg (by norm_num [mkProj])]
  simp only [hx, hy, hpx, hpy, hg, if_true]
  have hdist : ((400 : ℚ) - (mkAnt 400 500).x) ^ 2 +
      ((500 : ℚ) - (mkAnt 400 500).y) ^ 2 < 15 ^ 2 := by
    norm_num [mkAnt]
  simp only [mkAnt, mkProj, projectile_update, take_damage]
  norm_num

/-- C1, amended: each tick of an active projectile runs both impact checks
in sequence rather than as exclusive branches: a terrain collision applies
a radius-20 crater and deactivates the projectile, and — independently,
not only otherwise — an enemy within Euclidean distance 15 takes the
projectile's damage and the projectile is deactivated; when the ground
check fires, the enemy-damage check still runs, so both branches can fire
in the same tick. -/
theorem C1_projectile_impacts (hm : List ℤ) (p : Proj) (enemy : Ant)
    (hact : p.active = true) :
    (check_collision hm (pyInt (projectile_update p).x)
        (pyInt (projectile_update p).y) = true →
      (game_update_projectile hm p enemy).1 =
        apply_destruction hm (pyInt (projectile_update p).x)
          (pyInt (projectile_update p).y) 20 ∧
      (game_update_projectile hm p enemy).2.1.active = false) ∧
    (check_collision hm (pyInt (projectile_update p).x)
        (pyInt (projectile_update p).y) = false →
      (game_update_projectile hm p enemy).1 = hm) ∧
    (((projectile_update p).x - enemy.x) ^ 2 +
        ((projectile_update p).y - enemy.y) ^ 2 < 15 ^ 2 →
      (game_update_projectile hm p enemy).2.2 = take_damage enemy p.damage ∧
      (game_update_projectile hm p enemy).2.1.active = false) ∧
    (¬(((projectile_update p).x - enemy.x) ^ 2 +
        ((projectile_update p).y - enemy.y) ^ 2 < 15 ^ 2) →
      (game_update_projectile hm p enemy).2.2 = enemy) ∧
    (check_collision hm (pyInt (projectile_update p).x)
        (pyInt (projectile_update p).y) = false →
      ¬(((projectile_update p).x - enemy.x) ^ 2 +
        ((projectile_update p).y - enemy.y) ^ 2 < 15 ^ 2) →
      game_update_projectile hm p enemy = (hm, projectile_update p, enemy)) := by
  have hdmg : (projectile_update p).damage = p.damage := by
    simp [projectile_update]
  by_cases hgc : check_collision hm (pyInt (projectile_update p).x)
      (pyInt (projectile_update p).y) = true <;>
    refine ⟨fun hg => ?_, fun hg => ?_, fun he => ?_, fun he => ?_,
      fun hg he => ?_⟩ <;>
    simp_all [game_update_projectile, hact]

theorem C1_projectile_impacts_witness :
    (game_update_projectile (List.replicate 400 100) (mkProj 400 (999/2) 0 0)
        (mkAnt 400 500)).2.2 = take_damage (mkAnt 400 500) 30 ∧
    (game_update_projectile (List.replicate 400 100) (mkProj 400 (999/2) 0 0)
        (mkAnt 400 500)).2.1.active = false := by
  have h := (C1_projectile_impacts (List.replicate 400 100)
    (mkProj 400 (999/2) 0 0) (mkAnt 400 500) rfl).2.2.1
  have hd := h (by norm_num [projectile_update, mkProj, mkAnt, GRAVITY])
  exact ⟨by rw [hd.1]; norm_num [mkProj], hd.2⟩

/-- C10: with its combatant alive, an Idle controller whose timer has run
out (timer ≤ 0, ticked by any dt ≥ 0) and whose horizontal distance to the
player is < 100 transitions to Attacking with timer = 2.0; and a single
update of an Attacking controller always returns to Idle with the
uniform(1.0, 2.0) draw as its timer — for every random roll and
independently of whether the invoked ability activation succeeded — so
Attacking is a one-tick transient state. -/
theorem C10_state_machine (dt : ℚ) (rnd : AIRand) (c : AIController)
    (ant player : Ant) (halive : ant.is_alive = true) :
    (c.state = "idle" → c.state_timer ≤ 0 → 0 ≤ dt →
      |ant.x - player.x| < 100 →
      ai_update dt rnd c ant player =
        ({ c with state := "attack", state_timer := 2 }, ant, player)) ∧
    (c.state = "attack" →
      (ai_update dt rnd c ant player).1.state = "idle" ∧
      (ai_update dt rnd c ant player).1.state_timer = rnd.u_attack) := by
  constructor
  · intro hs ht hdt hd
    unfold ai_update
    rw [if_neg (by simp [halive])]
    rw [if_pos hs, if_pos (by linarith), if_pos hd]
  · intro hs
    unfold ai_update
    rw [if_neg (by simp [halive])]
    rw [if_neg (by simp [hs]), if_neg (by simp [hs]), if_pos hs]
    exact ⟨rfl, rfl⟩

theorem C10_state_machine_witness :
    ai_update 1 ⟨2, 1, 3/2, 1/2, 1/2, 1/2⟩
        ⟨"idle", 0, 7/10⟩ (mkAnt 0 0) (mkAnt 40 0) =
      (⟨"attack", 2, 7/10⟩, mkAnt 0 0, mkAnt 40 0) ∧
    (ai_update 1 ⟨2, 1, 3/2, 1/2, 1/2, 1/2⟩
        ⟨"attack", 2, 7/10⟩ (mkAnt 0 0) (mkAnt 40 0)).1.state = "idle" ∧
    (ai_update 1 ⟨2, 1, 3/2, 1/2, 1/2, 1/2⟩
        ⟨"attack", 2, 7/10⟩ (mkAnt 0 0) (mkAnt 40 0)).1.state_timer = 3/2 := by
  have h1 := (C10_state_machine 1 ⟨2, 1, 3/2, 1/2, 1/2, 1/2⟩
    ⟨"idle", 0, 7/10⟩ (mkAnt 0 0) (mkAnt 40 0) rfl).1
  have h2 := (C10_state_machine 1 ⟨2, 1, 3/2, 1/2, 1/2, 1/2⟩
    ⟨"attack", 2, 7/10⟩ (mkAnt 0 0) (mkAnt 40 0) rfl).2
  refine ⟨?_, h2 rfl⟩
  have := h1 rfl (le_refl 0) (by norm_num) (by norm_num [mkAnt])
  simpa using this
